import Mathlib

/-!
Verification of `src/src/server/routers/ai-helpers/leo-ex-3.py`, a linear
Python script that drives the Leonardo image-generation REST API with four
HTTP calls: (1) request a presigned upload target, (2) upload a local image
file to it, (3) submit an image-to-image generation job, (4) sleep a fixed
20 seconds and poll the generation once.

The script is embedded shallowly: JSON values are an inductive type with
rational numbers, `json.loads` / `response.json()` is an executable
fuel-based JSON parser, Python exceptions (KeyError, TypeError,
json.JSONDecodeError) become an error type, and the script itself is a
function from the four HTTP responses (the provider's behaviour) and the
local file's contents to the trace of observable events (HTTP requests
issued, lines printed, sleeps) together with an optional uncaught exception.
-/

/-- JSON values, as produced by Python's `json` module.  Python decodes JSON
numbers to int/float; here both are represented exactly as rationals (the
only numeric literals in the script, 512 and 0.5, are exact in either
representation).  Objects are association lists in document order. -/
inductive Json where
  | null : Json
  | bool : Bool → Json
  | num : ℚ → Json
  | str : String → Json
  | arr : List Json → Json
  | obj : List (String × Json) → Json
deriving Repr

/-- Python exceptions the script can raise: `d[k]` on a dict missing `k`
raises KeyError, subscripting a non-dict raises TypeError, and
`json.loads` on malformed input raises json.JSONDecodeError (`json.loads`
of a non-string/bytes raises TypeError). -/
inductive PyError where
  | keyError : String → PyError
  | typeError : PyError
  | jsonDecodeError : PyError
deriving Repr, DecidableEq

/-- Python `d[k]` on a decoded JSON value: KeyError when the key is absent,
TypeError when the value is not a dict. -/
def Json.getItem : Json → String → Except PyError Json
  | .obj fs, k =>
    match fs.lookup k with
    | some v => .ok v
    | none => .error (.keyError k)
  | _, _ => .error .typeError

/-- The opening-brace character, written by code point to keep brace
characters out of literals. -/
def lbrace : Char := Char.ofNat 123

/-- The closing-brace character. -/
def rbrace : Char := Char.ofNat 125

/-- The single-quote character, used by Python repr of strings. -/
def squote : Char := Char.ofNat 39

/-- JSON whitespace characters. -/
def wsChar (c : Char) : Bool :=
  c == ' ' || c == '\t' || c == '\n' || c == '\r'

/-- Drop leading JSON whitespace. -/
def dropWs (cs : List Char) : List Char := cs.dropWhile wsChar

/-- Hexadecimal digit value (by code point), for `\u` escapes. -/
def hexDigit (c : Char) : Option Nat :=
  let n := c.toNat
  if 48 ≤ n ∧ n ≤ 57 then some (n - 48)
  else if 97 ≤ n ∧ n ≤ 102 then some (n - 87)
  else if 65 ≤ n ∧ n ≤ 70 then some (n - 55)
  else none

/-- Parse the body of a JSON string (after the opening quote), returning the
decoded characters and the input after the closing quote.  Fuel-indexed for
termination. -/
def parseStrChars : Nat → List Char → Option (List Char × List Char)
  | 0, _ => none
  | _ + 1, [] => none
  | fuel + 1, c :: cs =>
    if c == '"' then some ([], cs)
    else if c == '\\' then
      match cs with
      | [] => none
      | e :: cs2 =>
        if e == '"' then (parseStrChars fuel cs2).map (fun p => ('"' :: p.1, p.2))
        else if e == '\\' then (parseStrChars fuel cs2).map (fun p => ('\\' :: p.1, p.2))
        else if e == '/' then (parseStrChars fuel cs2).map (fun p => ('/' :: p.1, p.2))
        else if e == 'n' then (parseStrChars fuel cs2).map (fun p => ('\n' :: p.1, p.2))
        else if e == 't' then (parseStrChars fuel cs2).map (fun p => ('\t' :: p.1, p.2))
        else if e == 'r' then (parseStrChars fuel cs2).map (fun p => ('\r' :: p.1, p.2))
        else if e == 'b' then (parseStrChars fuel cs2).map (fun p => (Char.ofNat 8 :: p.1, p.2))
        else if e == 'f' then (parseStrChars fuel cs2).map (fun p => (Char.ofNat 12 :: p.1, p.2))
        else if e == 'u' then
          match cs2 with
          | a :: b :: c3 :: d :: cs3 =>
            match hexDigit a, hexDigit b, hexDigit c3, hexDigit d with
            | some ha, some hb, some hc, some hd =>
              (parseStrChars fuel cs3).map
                (fun p => (Char.ofNat (((ha * 16 + hb) * 16 + hc) * 16 + hd) :: p.1, p.2))
            | _, _, _, _ => none
          | _ => none
        else none
    else (parseStrChars fuel cs).map (fun p => (c :: p.1, p.2))

/-- Split off a maximal leading run of decimal digits. -/
def splitDigits (cs : List Char) : List Char × List Char :=
  cs.span (fun c => c.isDigit)

/-- Decimal value of a digit run (most significant first). -/
def decDigitsVal (ds : List Char) : Nat :=
  ds.foldl (fun n c => 10 * n + (c.toNat - 48)) 0

/-- Parse a JSON number (sign, integer part, optional fraction, optional
exponent) to an exact rational. -/
def parseNumber (cs : List Char) : Option (ℚ × List Char) :=
  let (neg, cs1) :=
    match cs with
    | c :: rest => if c == '-' then (true, rest) else (false, cs)
    | [] => (false, [])
  let (ints, cs2) := splitDigits cs1
  if ints.isEmpty then none
  else
    let intPart : ℚ := (decDigitsVal ints : ℚ)
    let (val1, cs3) :=
      match cs2 with
      | c :: rest =>
        if c == '.' then
          let (fracs, cs3) := splitDigits rest
          if fracs.isEmpty then (none, cs2)
          else (some (intPart + (decDigitsVal fracs : ℚ) / ((10 : ℚ) ^ fracs.length)), cs3)
        else (some intPart, cs2)
      | [] => (some intPart, cs2)
    match val1 with
    | none => none
    | some v =>
      let (val2, cs4) :=
        match cs3 with
        | c :: rest =>
          if c == 'e' || c == 'E' then
            let (expNeg, rest2) :=
              match rest with
              | e :: rest2 =>
                if e == '-' then (true, rest2)
                else if e == '+' then (false, rest2)
                else (false, rest)
              | [] => (false, rest)
            let (exps, cs4) := splitDigits rest2
            if exps.isEmpty then (none, cs3)
            else if expNeg then (some (v / ((10 : ℚ) ^ decDigitsVal exps)), cs4)
            else (some (v * ((10 : ℚ) ^ decDigitsVal exps)), cs4)
          else (some v, cs3)
        | [] => (some v, cs3)
      match val2 with
      | none => none
      | some v2 => some ((if neg then -v2 else v2), cs4)

mutual

/-- Parse one JSON value.  Fuel-indexed; every recursive call strictly
decreases the fuel, and each level consumes at least one input character, so
`2 * length + 10` fuel suffices for any input. -/
def parseValue : Nat → List Char → Option (Json × List Char)
  | 0, _ => none
  | fuel + 1, cs =>
    match dropWs cs with
    | [] => none
    | c :: cs1 =>
      if c == '"' then
        (parseStrChars (cs1.length + 1) cs1).map (fun p => (Json.str (String.mk p.1), p.2))
      else if c == lbrace then parseMembers fuel cs1
      else if c == '[' then parseElems fuel cs1
      else
        match c :: cs1 with
        | 't' :: 'r' :: 'u' :: 'e' :: rest => some (Json.bool true, rest)
        | 'f' :: 'a' :: 'l' :: 's' :: 'e' :: rest => some (Json.bool false, rest)
        | 'n' :: 'u' :: 'l' :: 'l' :: rest => some (Json.null, rest)
        | cs2 => (parseNumber cs2).map (fun p => (Json.num p.1, p.2))

/-- Parse array elements after the opening bracket. -/
def parseElems : Nat → List Char → Option (Json × List Char)
  | 0, _ => none
  | fuel + 1, cs =>
    match dropWs cs with
    | c :: cs1 =>
      if c == ']' then some (Json.arr [], cs1)
      else
        match parseValue fuel cs with
        | some (v, rest) => parseElemsTail fuel [v] rest
        | none => none
    | [] => none

/-- Parse the remaining array elements, accumulating in reverse. -/
def parseElemsTail : Nat → List Json → List Char → Option (Json × List Char)
  | 0, _, _ => none
  | fuel + 1, acc, cs =>
    match dropWs cs with
    | c :: cs1 =>
      if c == ']' then some (Json.arr acc.reverse, cs1)
      else if c == ',' then
        match parseValue fuel cs1 with
        | some (v, rest) => parseElemsTail fuel (v :: acc) rest
        | none => none
      else none
    | [] => none

/-- Parse object members after the opening brace. -/
def parseMembers : Nat → List Char → Option (Json × List Char)
  | 0, _ => none
  | fuel + 1, cs =>
    match dropWs cs with
    | c :: cs1 =>
      if c == rbrace then some (Json.obj [], cs1)
      else
        match parseMember fuel (c :: cs1) with
        | some (kv, rest) => parseMembersTail fuel [kv] rest
        | none => none
    | [] => none

/-- Parse one `"key": value` member. -/
def parseMember : Nat → List Char → Option ((String × Json) × List Char)
  | 0, _ => none
  | fuel + 1, cs =>
    match dropWs cs with
    | c :: cs1 =>
      if c == '"' then
        match parseStrChars (cs1.length + 1) cs1 with
        | some (key, rest) =>
          match dropWs rest with
          | c2 :: rest2 =>
            if c2 == ':' then
              (parseValue fuel rest2).map (fun p => ((String.mk key, p.1), p.2))
            else none
          | [] => none
        | none => none
      else none
    | [] => none

/-- Parse the remaining object members, accumulating in reverse. -/
def parseMembersTail : Nat → List (String × Json) → List Char → Option (Json × List Char)
  | 0, _, _ => none
  | fuel + 1, acc, cs =>
    match dropWs cs with
    | c :: cs1 =>
      if c == rbrace then some (Json.obj acc.reverse, cs1)
      else if c == ',' then
        match parseMember fuel cs1 with
        | some (kv, rest) => parseMembersTail fuel (kv :: acc) rest
        | none => none
      else none
    | [] => none

end

/-- `json.loads` on a string: parse one JSON document, allowing only
trailing whitespace. -/
def Json.parse (s : String) : Option Json :=
  match parseValue (2 * s.length + 10) s.toList with
  | some (j, rest) => if (dropWs rest).isEmpty then some j else none
  | none => none

mutual

/-- Python `repr` of a decoded JSON value, used when rendering containers.
Strings are single-quoted (escape sequences inside them are not reproduced);
non-integral numbers are rendered as fractions rather than in Python's float
notation.  The script only ever interpolates strings and containers of
strings, so only the string case is observable in the claims. -/
def pyReprJ : Json → String
  | .null => "None"
  | .bool true => "True"
  | .bool false => "False"
  | .num q => if q.den = 1 then toString q.num else toString q.num ++ "/" ++ toString q.den
  | .str s => String.mk [squote] ++ s ++ String.mk [squote]
  | .arr xs => "[" ++ pyReprList xs ++ "]"
  | .obj fs => String.mk [lbrace] ++ pyReprFields fs ++ String.mk [rbrace]

/-- Comma-separated reprs of list elements. -/
def pyReprList : List Json → String
  | [] => ""
  | [x] => pyReprJ x
  | x :: xs => pyReprJ x ++ ", " ++ pyReprList xs

/-- Comma-separated reprs of dict entries. -/
def pyReprFields : List (String × Json) → String
  | [] => ""
  | [(k, v)] => String.mk [squote] ++ k ++ String.mk [squote] ++ ": " ++ pyReprJ v
  | (k, v) :: fs =>
      String.mk [squote] ++ k ++ String.mk [squote] ++ ": " ++ pyReprJ v ++ ", " ++ pyReprFields fs

end

/-- Python `str()` of a decoded JSON value, as used by `"%s" % x` string
formatting and by `requests` when coercing a URL argument: a string is
itself, anything else renders like its repr. -/
def pyStr : Json → String
  | .str s => s
  | j => pyReprJ j

/-- `response.json()`: parse the response body text as JSON;
`requests.Response.json` raises a JSON decode error on malformed bodies. -/
def responseJson (r : String) : Except PyError Json :=
  match Json.parse r with
  | some j => .ok j
  | none => .error .jsonDecodeError

/-- `json.loads` applied to an already-decoded JSON value, as the script does
to the `fields` entry of call 1's response: it must be a string (else
TypeError) holding well-formed JSON (else JSONDecodeError). -/
def pyJsonLoads : Json → Except PyError Json
  | .str s => responseJson s
  | _ => .error .typeError

/-- The body an HTTP request is sent with: `json=payload`, or
`data=fields, files=files` (a multipart form whose data part is the decoded
fields value and whose files part maps names to file contents), or none. -/
inductive RequestBody where
  | jsonBody : Json → RequestBody
  | formData : Json → List (String × String) → RequestBody
  | noBody : RequestBody
deriving Repr

/-- An HTTP request as issued by `requests`: method, URL, the explicit
`headers=` dict passed by the caller (empty when none is passed), body. -/
structure HttpRequest where
  method : String
  url : String
  headers : List (String × String)
  body : RequestBody
deriving Repr

/-- An HTTP response as seen by the script: `status_code` and body `text`
(`response.json()` parses `text`). -/
structure HttpResponse where
  status_code : Nat
  text : String
deriving Repr

/-- The provider's behaviour for one run: the four responses the script's
four requests receive, in order.  The script is deterministic given these. -/
structure Provider where
  resp1 : HttpResponse
  resp2 : HttpResponse
  resp3 : HttpResponse
  resp4 : HttpResponse
deriving Repr

/-- Observable events of a run: an HTTP request issued, a line printed, or a
`time.sleep` for the given number of seconds. -/
inductive Event where
  | httpCall : HttpRequest → Event
  | print : String → Event
  | sleep : Nat → Event
deriving Repr

/-- `api_key = "<YOUR_API_KEY>"` — the hard-coded credential placeholder. -/
def api_key : String := "<YOUR_API_KEY>"

/-- `authorization = "Bearer %s" % api_key`. -/
def authorization : String := "Bearer " ++ api_key

/-- The `headers` dict sent with calls 1, 3 and 4. -/
def apiHeaders : List (String × String) :=
  [("accept", "application/json"),
   ("content-type", "application/json"),
   ("authorization", authorization)]

/-- The authorization header entry. -/
def authHeader : String × String := ("authorization", authorization)

/-- URL of call 1. -/
def initImageUrl : String := "https://cloud.leonardo.ai/api/rest/v1/init-image"

/-- URL of call 3; call 4 appends `/` and the generation id to it. -/
def generationsUrl : String := "https://cloud.leonardo.ai/api/rest/v1/generations"

/-- `image_file_path = "/workspace/test.jpg"` — the hard-coded local path. -/
def image_file_path : String := "/workspace/test.jpg"

/-- `payload = {"extension": ...}` — the body of call 1; the script passes
the literal `"jpg"`. -/
def initImagePayload (extension : String) : Json :=
  Json.obj [("extension", Json.str extension)]

/-- Call 1: `requests.post(url, json=payload, headers=headers)` on the
init-image endpoint. -/
def initImageReq (extension : String) : HttpRequest :=
  { method := "POST", url := initImageUrl, headers := apiHeaders,
    body := .jsonBody (initImagePayload extension) }

/-- Call 2: `requests.post(url, data=fields, files=files)` — the presigned
URL from call 1, the decoded form fields, the opened file; no `headers=`
argument, so no API authorization header is attached. -/
def uploadReq (url : String) (fields : Json) (fileContents : String) : HttpRequest :=
  { method := "POST", url := url, headers := [],
    body := .formData fields [("file", fileContents)] }

/-- The generation payload of call 3, exactly the dict literal in the
source; `init_strength` is the caller-set generation parameter (the script
passes the literal `0.5`) and `image_id` is whatever call 1 returned under
`uploadInitImage.id`. -/
def genPayload (image_id : Json) (init_strength : ℚ) : Json :=
  Json.obj
    [("height", Json.num 512),
     ("modelId", Json.str "1e60896f-3c26-4296-8ecc-53e2afecc132"),
     ("prompt", Json.str "An oil painting of a cat"),
     ("width", Json.num 512),
     ("init_image_id", image_id),
     ("init_strength", Json.num init_strength)]

/-- Call 3: `requests.post(url, json=payload, headers=headers)` on the
generations endpoint. -/
def generationsReq (payload : Json) : HttpRequest :=
  { method := "POST", url := generationsUrl, headers := apiHeaders,
    body := .jsonBody payload }

/-- Call 4: `requests.get(url, headers=headers)` where
`url = ".../generations/%s" % generation_id`. -/
def pollReq (generation_id : String) : HttpRequest :=
  { method := "GET", url := generationsUrl ++ "/" ++ generation_id,
    headers := apiHeaders, body := .noBody }

/-- `fields = json.loads(response.json()['uploadInitImage']['fields'])`
applied to the already-parsed response body. -/
def uploadFields (j : Json) : Except PyError Json := do
  pyJsonLoads (← (← j.getItem "uploadInitImage").getItem "fields")

/-- `url = response.json()['uploadInitImage']['url']`. -/
def uploadUrl (j : Json) : Except PyError Json := do
  (← j.getItem "uploadInitImage").getItem "url"

/-- `image_id = response.json()['uploadInitImage']['id']`. -/
def uploadId (j : Json) : Except PyError Json := do
  (← j.getItem "uploadInitImage").getItem "id"

/-- The three extractions from call 1's body in source order: the first to
fail determines the exception. -/
def extractUpload (j : Json) : Except PyError (Json × Json × Json) := do
  let f ← uploadFields j
  let u ← uploadUrl j
  let i ← uploadId j
  pure (f, u, i)

/-- `generation_id = response.json()['sdGenerationJob']['generationId']`. -/
def extractGenId (j : Json) : Except PyError Json := do
  (← j.getItem "sdGenerationJob").getItem "generationId"

/-- Trace after call 1 and its status print — emitted before any of call 1's
body is inspected. -/
def trace1 (P : Provider) : List Event :=
  [Event.httpCall (initImageReq "jpg"),
   Event.print ("Get a presigned URL for uploading an image: " ++ toString P.resp1.status_code)]

/-- Trace after calls 1–3 and their status prints, given the values
extracted from call 1's body. -/
def trace3 (s : ℚ) (P : Provider) (file : String) (f u i : Json) : List Event :=
  trace1 P ++
  [Event.httpCall (uploadReq (pyStr u) f file),
   Event.print ("Upload image via presigned URL: " ++ toString P.resp2.status_code),
   Event.httpCall (generationsReq (genPayload i s)),
   Event.print ("Generation of Images using Image to Image " ++ toString P.resp3.status_code)]

/-- The script from the `# Get the generation of images` comment on: parse
call 3's body, extract the generation id, build call 4's URL, sleep 20,
issue the GET, print its text. -/
def afterUpload (s : ℚ) (P : Provider) (file : String) (f u i : Json) :
    List Event × Option PyError :=
  match responseJson P.resp3.text with
  | .error e => (trace3 s P file f u i, some e)
  | .ok j3 =>
    match extractGenId j3 with
    | .error e => (trace3 s P file f u i, some e)
    | .ok g =>
      (trace3 s P file f u i ++
        [Event.sleep 20,
         Event.httpCall (pollReq (pyStr g)),
         Event.print P.resp4.text], none)

/-- The script from the `# Upload image via presigned URL` comment on:
extract fields/url/id from call 1's parsed body (raising stops the run with
only call 1 issued), then issue calls 2 and 3 with their prints, then
continue with `afterUpload`. -/
def afterParse1 (s : ℚ) (P : Provider) (file : String) (j1 : Json) :
    List Event × Option PyError :=
  match extractUpload j1 with
  | .error e => (trace1 P, some e)
  | .ok (f, u, i) => afterUpload s P file f u i

/-- The whole script, as a function of the generation-parameter
`init_strength` (the source passes the literal `0.5`, see `runScriptSrc`),
the provider's four responses, and the contents of the local image file.
Returns the event trace and the uncaught exception, if any. -/
def runScript (s : ℚ) (P : Provider) (file : String) : List Event × Option PyError :=
  match responseJson P.resp1.text with
  | .error e => (trace1 P, some e)
  | .ok j1 => afterParse1 s P file j1

/-- The script exactly as written, with `init_strength` 0.5. -/
def runScriptSrc (P : Provider) (file : String) : List Event × Option PyError :=
  runScript 0.5 P file

/-- The HTTP requests of a trace, in order of issue. -/
def httpCalls (tr : List Event) : List HttpRequest :=
  tr.filterMap fun e =>
    match e with
    | .httpCall r => some r
    | _ => none

/-- Whether an event is a `time.sleep`. -/
def isSleepEv : Event → Bool
  | .sleep _ => true
  | _ => false

/-- Whether a request is a GET (only call 4 is). -/
def isGet (r : HttpRequest) : Bool := r.method == "GET"

/-- Mocked call-1 response: upload id `"abc123"`, a presigned URL, and form
fields given (as the provider does) as a JSON-encoded string. -/
def goodResp1 : HttpResponse :=
  { status_code := 200,
    text := "\x7b\"uploadInitImage\": \x7b\"fields\": \"\x7b\\\"key\\\": \\\"v\\\"\x7d\", \"url\": \"https://storage.example/upload\", \"id\": \"abc123\"\x7d\x7d" }

/-- Mocked call-3 response: generation id `"gen-001"`. -/
def goodResp3 : HttpResponse :=
  { status_code := 200,
    text := "\x7b\"sdGenerationJob\": \x7b\"generationId\": \"gen-001\"\x7d\x7d" }

/-- The parsed body of `goodResp1`. -/
def goodJ1 : Json :=
  Json.obj
    [("uploadInitImage",
      Json.obj
        [("fields", Json.str "\x7b\"key\": \"v\"\x7d"),
         ("url", Json.str "https://storage.example/upload"),
         ("id", Json.str "abc123")])]

/-- The decoded form fields of `goodResp1`. -/
def goodFields : Json := Json.obj [("key", Json.str "v")]

/-- The parsed body of `goodResp3`. -/
def goodJ3 : Json :=
  Json.obj [("sdGenerationJob", Json.obj [("generationId", Json.str "gen-001")])]

/-- A provider on which the whole run succeeds. -/
def goodP : Provider :=
  { resp1 := goodResp1,
    resp2 := { status_code := 204, text := "" },
    resp3 := goodResp3,
    resp4 := { status_code := 200, text := "RESULT" } }

/-- A provider whose call 1 fails: HTTP 500 with an empty-object error body,
which lacks the `uploadInitImage` key. -/
def badStatusP : Provider :=
  { resp1 := { status_code := 500, text := "\x7b\x7d" },
    resp2 := { status_code := 0, text := "" },
    resp3 := { status_code := 0, text := "" },
    resp4 := { status_code := 0, text := "" } }

/-- A provider whose call 1 returns a non-success status but a body with the
expected structure. -/
def errStatusGoodBodyP : Provider :=
  { resp1 := { status_code := 500, text := goodResp1.text },
    resp2 := { status_code := 204, text := "" },
    resp3 := goodResp3,
    resp4 := { status_code := 200, text := "RESULT" } }

/-- A provider whose call-1 body has a `fields` entry that is not
well-formed JSON. -/
def badFieldsP : Provider :=
  { resp1 := { status_code := 200,
               text := "\x7b\"uploadInitImage\": \x7b\"fields\": \"not json\", \"url\": \"https://storage.example/upload\", \"id\": \"abc123\"\x7d\x7d" },
    resp2 := { status_code := 0, text := "" },
    resp3 := { status_code := 0, text := "" },
    resp4 := { status_code := 0, text := "" } }

/-- The parsed body of `badFieldsP.resp1`. -/
def badFieldsJ1 : Json :=
  Json.obj
    [("uploadInitImage",
      Json.obj
        [("fields", Json.str "not json"),
         ("url", Json.str "https://storage.example/upload"),
         ("id", Json.str "abc123")])]

/-- A provider whose call 3 returns a well-formed body that lacks the
`sdGenerationJob` key. -/
def badGenP : Provider :=
  { resp1 := goodResp1,
    resp2 := { status_code := 204, text := "" },
    resp3 := { status_code := 500, text := "\x7b\x7d" },
    resp4 := { status_code := 0, text := "" } }

theorem extractUpload_ok_iff (j f u i : Json) :
    extractUpload j = Except.ok (f, u, i) ↔
      uploadFields j = Except.ok f ∧ uploadUrl j = Except.ok u ∧ uploadId j = Except.ok i := by
  cases hf : uploadFields j <;> cases hu : uploadUrl j <;> cases hi : uploadId j <;>
    simp [extractUpload, hf, hu, hi, Bind.bind, Except.bind, Pure.pure, Except.pure, and_assoc,
      eq_comm]

theorem extractUpload_error_of_fields (j : Json) (e : PyError)
    (hf : uploadFields j = Except.error e) : extractUpload j = Except.error e := by
  simp [extractUpload, hf, Bind.bind, Except.bind]

theorem runScript_ok (s : ℚ) (P : Provider) (file : String) (j1 f u i j3 g : Json)
    (h1 : responseJson P.resp1.text = Except.ok j1)
    (h2 : extractUpload j1 = Except.ok (f, u, i))
    (h3 : responseJson P.resp3.text = Except.ok j3)
    (h4 : extractGenId j3 = Except.ok g) :
    runScript s P file =
      (trace3 s P file f u i ++
        [Event.sleep 20, Event.httpCall (pollReq (pyStr g)), Event.print P.resp4.text],
       none) := by
  simp [runScript, afterParse1, afterUpload, h1, h2, h3, h4]

theorem runScript_none_inv (s : ℚ) (P : Provider) (file : String)
    (h : (runScript s P file).2 = none) :
    ∃ j1 f u i j3 g,
      responseJson P.resp1.text = Except.ok j1 ∧ extractUpload j1 = Except.ok (f, u, i) ∧
      responseJson P.resp3.text = Except.ok j3 ∧ extractGenId j3 = Except.ok g := by
  cases h1 : responseJson P.resp1.text with
  | error e => simp [runScript, h1] at h
  | ok j1 =>
    cases h2 : extractUpload j1 with
    | error e => simp [runScript, afterParse1, h1, h2] at h
    | ok t =>
      obtain ⟨f, u, i⟩ := t
      cases h3 : responseJson P.resp3.text with
      | error e => simp [runScript, afterParse1, afterUpload, h1, h2, h3] at h
      | ok j3 =>
        cases h4 : extractGenId j3 with
        | error e => simp [runScript, afterParse1, afterUpload, h1, h2, h3, h4] at h
        | ok g => exact ⟨j1, f, u, i, j3, g, rfl, h2, rfl, h4⟩

theorem runScript_extends_trace3 (s : ℚ) (P : Provider) (file : String) (j1 f u i : Json)
    (h1 : responseJson P.resp1.text = Except.ok j1)
    (h2 : extractUpload j1 = Except.ok (f, u, i)) :
    ∃ rest, (runScript s P file).1 = trace3 s P file f u i ++ rest := by
  cases h3 : responseJson P.resp3.text with
  | error e =>
    exact ⟨[], by simp [runScript, afterParse1, afterUpload, h1, h2, h3]⟩
  | ok j3 =>
    cases h4 : extractGenId j3 with
    | error e =>
      exact ⟨[], by simp [runScript, afterParse1, afterUpload, h1, h2, h3, h4]⟩
    | ok g =>
      exact ⟨[Event.sleep 20, Event.httpCall (pollReq (pyStr g)), Event.print P.resp4.text],
        by simp [runScript, afterParse1, afterUpload, h1, h2, h3, h4]⟩

theorem httpCalls_append (a b : List Event) :
    httpCalls (a ++ b) = httpCalls a ++ httpCalls b := by
  simp [httpCalls]

theorem httpCalls_trace3 (s : ℚ) (P : Provider) (file : String) (f u i : Json) :
    httpCalls (trace3 s P file f u i) =
      [initImageReq "jpg", uploadReq (pyStr u) f file, generationsReq (genPayload i s)] := by
  simp [httpCalls, trace3, trace1]

theorem runScript_first_events (s : ℚ) (P : Provider) (file : String) :
    ∃ rest, (runScript s P file).1 = trace1 P ++ rest := by
  cases h1 : responseJson P.resp1.text with
  | error e => exact ⟨[], by simp [runScript, h1]⟩
  | ok j1 =>
    cases h2 : extractUpload j1 with
    | error e => exact ⟨[], by simp [runScript, afterParse1, h1, h2]⟩
    | ok t =>
      obtain ⟨f, u, i⟩ := t
      obtain ⟨rest, hr⟩ := runScript_extends_trace3 s P file j1 f u i h1 h2
      refine ⟨[Event.httpCall (uploadReq (pyStr u) f file),
        Event.print ("Upload image via presigned URL: " ++ toString P.resp2.status_code),
        Event.httpCall (generationsReq (genPayload i s)),
        Event.print ("Generation of Images using Image to Image " ++
          toString P.resp3.status_code)] ++ rest, ?_⟩
      rw [hr, trace3, List.append_assoc]

/-- C1: if call 1's body parses and the three extractions succeed — so the
upload id returned under `uploadInitImage.id` is `i` — then the third HTTP
request of the run is the generations POST whose JSON payload carries that
very value `i` under `init_image_id`, unchanged. -/
theorem C1_upload_id_into_generation_payload (s : ℚ) (P : Provider) (file : String)
    (j1 f u i : Json)
    (h1 : responseJson P.resp1.text = Except.ok j1)
    (h2 : extractUpload j1 = Except.ok (f, u, i)) :
    uploadId j1 = Except.ok i ∧
    (httpCalls (runScript s P file).1).get? 2 = some (generationsReq (genPayload i s)) ∧
    Json.getItem (genPayload i s) "init_image_id" = Except.ok i := by
  refine ⟨((extractUpload_ok_iff j1 f u i).1 h2).2.2, ?_, rfl⟩
  obtain ⟨rest, hr⟩ := runScript_extends_trace3 s P file j1 f u i h1 h2
  rw [hr]
  rfl

/-- Witness for C1: a mocked provider returning upload id `"abc123"` leads
to a generations payload with `init_image_id == "abc123"`. -/
theorem C1_witness :
    responseJson goodP.resp1.text = Except.ok goodJ1 ∧
    extractUpload goodJ1 =
      Except.ok (goodFields, Json.str "https://storage.example/upload", Json.str "abc123") ∧
    (uploadId goodJ1 = Except.ok (Json.str "abc123") ∧
      (httpCalls (runScript 0.5 goodP "IMG").1).get? 2 =
        some (generationsReq (genPayload (Json.str "abc123") 0.5)) ∧
      Json.getItem (genPayload (Json.str "abc123") 0.5) "init_image_id" =
        Except.ok (Json.str "abc123")) :=
  ⟨rfl, rfl,
    C1_upload_id_into_generation_payload 0.5 goodP "IMG" goodJ1 goodFields
      (Json.str "https://storage.example/upload") (Json.str "abc123") rfl rfl⟩

/-- C2: if call 3's body parses and yields generation id `g` under
`sdGenerationJob.generationId`, then the fourth HTTP request of the run is a
GET whose URL is the generations endpoint with `/generations/` followed by
exactly `g` — i.e. the path ends in `/generations/<generation_id>`. -/
theorem C2_generation_id_into_poll_path (s : ℚ) (P : Provider) (file : String)
    (j1 f u i j3 : Json) (g : String)
    (h1 : responseJson P.resp1.text = Except.ok j1)
    (h2 : extractUpload j1 = Except.ok (f, u, i))
    (h3 : responseJson P.resp3.text = Except.ok j3)
    (h4 : extractGenId j3 = Except.ok (Json.str g)) :
    (httpCalls (runScript s P file).1).get? 3 = some (pollReq g) ∧
    (pollReq g).url = "https://cloud.leonardo.ai/api/rest/v1" ++ ("/generations/" ++ g) := by
  refine ⟨?_, rfl⟩
  rw [runScript_ok s P file j1 f u i j3 (Json.str g) h1 h2 h3 h4]
  rfl

/-- Witness for C2: with a mocked provider returning generation id
`"gen-001"`, call 4 targets a path ending in `/generations/gen-001`. -/
theorem C2_witness :
    responseJson goodP.resp1.text = Except.ok goodJ1 ∧
    extractUpload goodJ1 =
      Except.ok (goodFields, Json.str "https://storage.example/upload", Json.str "abc123") ∧
    responseJson goodP.resp3.text = Except.ok goodJ3 ∧
    extractGenId goodJ3 = Except.ok (Json.str "gen-001") ∧
    (pollReq "gen-001").url = "https://cloud.leonardo.ai/api/rest/v1/generations/gen-001" ∧
    ((httpCalls (runScript 0.5 goodP "IMG").1).get? 3 = some (pollReq "gen-001") ∧
      (pollReq "gen-001").url =
        "https://cloud.leonardo.ai/api/rest/v1" ++ ("/generations/" ++ "gen-001")) :=
  ⟨rfl, rfl, rfl, rfl, rfl,
    C2_generation_id_into_poll_path 0.5 goodP "IMG" goodJ1 goodFields
      (Json.str "https://storage.example/upload") (Json.str "abc123") goodJ3 "gen-001"
      rfl rfl rfl rfl⟩

/-- C3: in every run that completes without an exception, the HTTP requests
issued are exactly the four calls — init-image POST, presigned upload POST,
generations POST, poll GET — in that order, each once. -/
theorem C3_four_calls_in_fixed_order (s : ℚ) (P : Provider) (file : String)
    (h : (runScript s P file).2 = none) :
    ∃ f u i g, httpCalls (runScript s P file).1 =
      [initImageReq "jpg", uploadReq (pyStr u) f file,
       generationsReq (genPayload i s), pollReq (pyStr g)] := by
  obtain ⟨j1, f, u, i, j3, g, h1, h2, h3, h4⟩ := runScript_none_inv s P file h
  refine ⟨f, u, i, g, ?_⟩
  rw [runScript_ok s P file j1 f u i j3 g h1 h2 h3 h4]
  rfl

/-- Witness for C3: the mocked successful run completes and issues exactly
the four calls in order. -/
theorem C3_witness :
    (runScript 0.5 goodP "IMG").2 = none ∧
    (∃ f u i g, httpCalls (runScript 0.5 goodP "IMG").1 =
      [initImageReq "jpg", uploadReq (pyStr u) f "IMG",
       generationsReq (genPayload i 0.5), pollReq (pyStr g)]) :=
  ⟨rfl, C3_four_calls_in_fixed_order 0.5 goodP "IMG" rfl⟩

/-- C4 counterexample: a provider whose call 1 returns HTTP 500 with a
well-formed but empty JSON body.  The script raises KeyError on
`['uploadInitImage']` before call 2 is ever issued — only call 1 appears in
the trace — refuting the claim that a non-success status on call 1 never
leads to a raise before call 2. -/
theorem C4_counterexample :
    badStatusP.resp1.status_code = 500 ∧
    (runScript 0.5 badStatusP "IMG").2 = some (PyError.keyError "uploadInitImage") ∧
    httpCalls (runScript 0.5 badStatusP "IMG").1 = [initImageReq "jpg"] :=
  ⟨rfl, rfl, rfl⟩

/-- C4 (amended): the script never branches on call 1's status code — the
status is only printed.  Whenever call 1's body has the expected structure,
then for every status code, success or not, the run logs the status and
proceeds unconditionally to issue call 2. -/
theorem C4_status_only_logged (s : ℚ) (P : Provider) (file : String)
    (j1 f u i : Json)
    (h1 : responseJson P.resp1.text = Except.ok j1)
    (h2 : extractUpload j1 = Except.ok (f, u, i)) :
    (runScript s P file).1.get? 0 = some (Event.httpCall (initImageReq "jpg")) ∧
    (runScript s P file).1.get? 1 =
      some (Event.print
        ("Get a presigned URL for uploading an image: " ++ toString P.resp1.status_code)) ∧
    (runScript s P file).1.get? 2 = some (Event.httpCall (uploadReq (pyStr u) f file)) := by
  obtain ⟨rest, hr⟩ := runScript_extends_trace3 s P file j1 f u i h1 h2
  rw [hr]
  exact ⟨rfl, rfl, rfl⟩

/-- Witness for the amended C4: a provider answering call 1 with HTTP 500
but a structurally complete body; the run logs `500` and still issues
call 2. -/
theorem C4_witness :
    errStatusGoodBodyP.resp1.status_code = 500 ∧
    responseJson errStatusGoodBodyP.resp1.text = Except.ok goodJ1 ∧
    extractUpload goodJ1 =
      Except.ok (goodFields, Json.str "https://storage.example/upload", Json.str "abc123") ∧
    ((runScript 0.5 errStatusGoodBodyP "IMG").1.get? 0 =
        some (Event.httpCall (initImageReq "jpg")) ∧
      (runScript 0.5 errStatusGoodBodyP "IMG").1.get? 1 =
        some (Event.print
          ("Get a presigned URL for uploading an image: " ++
            toString errStatusGoodBodyP.resp1.status_code)) ∧
      (runScript 0.5 errStatusGoodBodyP "IMG").1.get? 2 =
        some (Event.httpCall
          (uploadReq (pyStr (Json.str "https://storage.example/upload")) goodFields "IMG"))) :=
  ⟨rfl, rfl, rfl,
    C4_status_only_logged 0.5 errStatusGoodBodyP "IMG" goodJ1 goodFields
      (Json.str "https://storage.example/upload") (Json.str "abc123") rfl rfl⟩

/-- C5: `init_strength` is a pass-through.  For every rational value `s` —
in particular values outside the provider-contract interval (0.1, 0.9) —
the run performs no local validation: whenever call 3 is reached, its
payload carries `init_strength` exactly `s`. -/
theorem C5_init_strength_forwarded_verbatim (s : ℚ) (P : Provider) (file : String)
    (j1 f u i : Json)
    (h1 : responseJson P.resp1.text = Except.ok j1)
    (h2 : extractUpload j1 = Except.ok (f, u, i)) :
    (httpCalls (runScript s P file).1).get? 2 = some (generationsReq (genPayload i s)) ∧
    Json.getItem (genPayload i s) "init_strength" = Except.ok (Json.num s) := by
  obtain ⟨rest, hr⟩ := runScript_extends_trace3 s P file j1 f u i h1 h2
  rw [hr]
  exact ⟨rfl, rfl⟩

/-- Witness for C5 at `init_strength = 5`, far outside (0.1, 0.9): the value
is still forwarded verbatim in call 3's payload. -/
theorem C5_witness :
    ¬((1 : ℚ) / 10 < 5 ∧ (5 : ℚ) < 9 / 10) ∧
    responseJson goodP.resp1.text = Except.ok goodJ1 ∧
    extractUpload goodJ1 =
      Except.ok (goodFields, Json.str "https://storage.example/upload", Json.str "abc123") ∧
    ((httpCalls (runScript 5 goodP "IMG").1).get? 2 =
        some (generationsReq (genPayload (Json.str "abc123") 5)) ∧
      Json.getItem (genPayload (Json.str "abc123") 5) "init_strength" =
        Except.ok (Json.num 5)) :=
  ⟨by norm_num, rfl, rfl,
    C5_init_strength_forwarded_verbatim 5 goodP "IMG" goodJ1 goodFields
      (Json.str "https://storage.example/upload") (Json.str "abc123") rfl rfl⟩

/-- C6: in every completed run the trace ends with call 3, its status print,
a single fixed `sleep 20`, the poll GET, and the final print; the run
contains exactly one sleep event (of 20 seconds, immediately before the
poll) and exactly one GET request — a single poll attempt with no retry. -/
theorem C6_fixed_delay_single_poll (s : ℚ) (P : Provider) (file : String)
    (h : (runScript s P file).2 = none) :
    ∃ pre i g,
      (runScript s P file).1 =
        pre ++ [Event.httpCall (generationsReq (genPayload i s)),
                Event.print ("Generation of Images using Image to Image " ++
                  toString P.resp3.status_code),
                Event.sleep 20,
                Event.httpCall (pollReq g),
                Event.print P.resp4.text] ∧
      (runScript s P file).1.filter isSleepEv = [Event.sleep 20] ∧
      (httpCalls (runScript s P file).1).filter isGet = [pollReq g] := by
  obtain ⟨j1, f, u, i, j3, g, h1, h2, h3, h4⟩ := runScript_none_inv s P file h
  rw [runScript_ok s P file j1 f u i j3 g h1 h2 h3 h4]
  exact ⟨trace1 P ++
    [Event.httpCall (uploadReq (pyStr u) f file),
     Event.print ("Upload image via presigned URL: " ++ toString P.resp2.status_code)],
    i, pyStr g, rfl, rfl, rfl⟩

/-- Witness for C6 on the mocked successful run. -/
theorem C6_witness :
    (runScript 0.5 goodP "IMG").2 = none ∧
    (∃ pre i g,
      (runScript 0.5 goodP "IMG").1 =
        pre ++ [Event.httpCall (generationsReq (genPayload i 0.5)),
                Event.print ("Generation of Images using Image to Image " ++
                  toString goodP.resp3.status_code),
                Event.sleep 20,
                Event.httpCall (pollReq g),
                Event.print goodP.resp4.text] ∧
      (runScript 0.5 goodP "IMG").1.filter isSleepEv = [Event.sleep 20] ∧
      (httpCalls (runScript 0.5 goodP "IMG").1).filter isGet = [pollReq g]) :=
  ⟨rfl, C6_fixed_delay_single_poll 0.5 goodP "IMG" rfl⟩

/-- C7: in every completed run, calls 1, 3 and 4 carry the bearer-token
authorization header, while call 2 — the multipart upload to the presigned
URL — is sent with no headers dict at all, in particular without the API's
authorization header. -/
theorem C7_auth_header_on_api_calls_only (s : ℚ) (P : Provider) (file : String)
    (h : (runScript s P file).2 = none) :
    ∃ f u i g,
      httpCalls (runScript s P file).1 =
        [initImageReq "jpg", uploadReq (pyStr u) f file,
         generationsReq (genPayload i s), pollReq (pyStr g)] ∧
      authHeader ∈ (initImageReq "jpg").headers ∧
      (uploadReq (pyStr u) f file).headers = [] ∧
      authHeader ∈ (generationsReq (genPayload i s)).headers ∧
      authHeader ∈ (pollReq (pyStr g)).headers := by
  obtain ⟨j1, f, u, i, j3, g, h1, h2, h3, h4⟩ := runScript_none_inv s P file h
  refine ⟨f, u, i, g, ?_, ?_, rfl, ?_, ?_⟩
  · rw [runScript_ok s P file j1 f u i j3 g h1 h2 h3 h4]
    rfl
  · simp [initImageReq, apiHeaders, authHeader]
  · simp [generationsReq, apiHeaders, authHeader]
  · simp [pollReq, apiHeaders, authHeader]

/-- Witness for C7 on the mocked successful run. -/
theorem C7_witness :
    (runScript 0.5 goodP "IMG").2 = none ∧
    (∃ f u i g,
      httpCalls (runScript 0.5 goodP "IMG").1 =
        [initImageReq "jpg", uploadReq (pyStr u) f "IMG",
         generationsReq (genPayload i 0.5), pollReq (pyStr g)] ∧
      authHeader ∈ (initImageReq "jpg").headers ∧
      (uploadReq (pyStr u) f "IMG").headers = [] ∧
      authHeader ∈ (generationsReq (genPayload i 0.5)).headers ∧
      authHeader ∈ (pollReq (pyStr g)).headers) :=
  ⟨rfl, C7_auth_header_on_api_calls_only 0.5 goodP "IMG" rfl⟩

/-- C8: the Request Upload Target operation, with a file extension string as
input, is a POST to `/api/rest/v1/init-image` whose JSON body is the
one-field object `extension`; the script's run always opens with exactly
this request, instantiated at `"jpg"`. -/
theorem C8_request_upload_target (ext : String) (s : ℚ) (P : Provider) (file : String) :
    (initImageReq ext).method = "POST" ∧
    (initImageReq ext).url = "https://cloud.leonardo.ai" ++ "/api/rest/v1/init-image" ∧
    (initImageReq ext).body = RequestBody.jsonBody (Json.obj [("extension", Json.str ext)]) ∧
    (runScript s P file).1.get? 0 = some (Event.httpCall (initImageReq "jpg")) := by
  refine ⟨rfl, rfl, rfl, ?_⟩
  obtain ⟨rest, hr⟩ := runScript_first_events s P file
  rw [hr]
  rfl

/-- C9: call 1's `uploadInitImage.fields` value is treated as a JSON-encoded
string and decoded with `json.loads`.  If that decoding fails (value absent,
not a string, or malformed JSON) the run stops with the exception and only
call 1 was issued; if the three extractions succeed, the decoded fields
value is exactly the form-data part of call 2's multipart body. -/
theorem C9_fields_json_decoded (s : ℚ) (P : Provider) (file : String) (j1 : Json)
    (h1 : responseJson P.resp1.text = Except.ok j1) :
    (∀ e : PyError, uploadFields j1 = Except.error e →
      runScript s P file = (trace1 P, some e) ∧
      httpCalls (trace1 P) = [initImageReq "jpg"]) ∧
    (∀ f u i : Json, extractUpload j1 = Except.ok (f, u, i) →
      uploadFields j1 = Except.ok f ∧
      (runScript s P file).1.get? 2 = some (Event.httpCall (uploadReq (pyStr u) f file)) ∧
      (uploadReq (pyStr u) f file).body = RequestBody.formData f [("file", file)]) := by
  constructor
  · intro e hf
    have h2 := extractUpload_error_of_fields j1 e hf
    exact ⟨by simp [runScript, afterParse1, h1, h2], rfl⟩
  · intro f u i h2
    refine ⟨((extractUpload_ok_iff j1 f u i).1 h2).1, ?_, rfl⟩
    obtain ⟨rest, hr⟩ := runScript_extends_trace3 s P file j1 f u i h1 h2
    rw [hr]
    rfl

/-- Witness for C9: a provider whose `fields` value is the string
`"not json"`; `json.loads` fails and the run stops after call 1 with a
JSON decode error. -/
theorem C9_witness :
    responseJson badFieldsP.resp1.text = Except.ok badFieldsJ1 ∧
    uploadFields badFieldsJ1 = Except.error PyError.jsonDecodeError ∧
    (runScript 0.5 badFieldsP "IMG" = (trace1 badFieldsP, some PyError.jsonDecodeError) ∧
      httpCalls (trace1 badFieldsP) = [initImageReq "jpg"]) :=
  ⟨rfl, rfl,
    (C9_fields_json_decoded 0.5 badFieldsP "IMG" badFieldsJ1 rfl).1 PyError.jsonDecodeError rfl⟩

/-- C10: if calls 1–3 went through but call 3's body, though well-formed,
does not yield `sdGenerationJob.generationId`, the run stops with that
exception right there: calls 1, 2, 3 appear in the trace (none rolled back),
but no sleep ever happens and no GET (call 4) is ever issued. -/
theorem C10_raise_before_sleep_no_rollback (s : ℚ) (P : Provider) (file : String)
    (j1 f u i j3 : Json) (e : PyError)
    (h1 : responseJson P.resp1.text = Except.ok j1)
    (h2 : extractUpload j1 = Except.ok (f, u, i))
    (h3 : responseJson P.resp3.text = Except.ok j3)
    (h4 : extractGenId j3 = Except.error e) :
    runScript s P file = (trace3 s P file f u i, some e) ∧
    httpCalls (trace3 s P file f u i) =
      [initImageReq "jpg", uploadReq (pyStr u) f file, generationsReq (genPayload i s)] ∧
    (trace3 s P file f u i).filter isSleepEv = [] ∧
    (httpCalls (trace3 s P file f u i)).filter isGet = [] := by
  exact ⟨by simp [runScript, afterParse1, afterUpload, h1, h2, h3, h4], rfl, rfl, rfl⟩

/-- Witness for C10: a provider whose call-3 body is `\x7b\x7d`; the run
stops with KeyError `sdGenerationJob` after call 3, with no sleep and no
call 4. -/
theorem C10_witness :
    responseJson badGenP.resp1.text = Except.ok goodJ1 ∧
    extractUpload goodJ1 =
      Except.ok (goodFields, Json.str "https://storage.example/upload", Json.str "abc123") ∧
    responseJson badGenP.resp3.text = Except.ok (Json.obj []) ∧
    extractGenId (Json.obj []) = Except.error (PyError.keyError "sdGenerationJob") ∧
    (runScript 0.5 badGenP "IMG" =
        (trace3 0.5 badGenP "IMG" goodFields (Json.str "https://storage.example/upload")
          (Json.str "abc123"),
         some (PyError.keyError "sdGenerationJob")) ∧
      httpCalls (trace3 0.5 badGenP "IMG" goodFields (Json.str "https://storage.example/upload")
          (Json.str "abc123")) =
        [initImageReq "jpg",
         uploadReq (pyStr (Json.str "https://storage.example/upload")) goodFields "IMG",
         generationsReq (genPayload (Json.str "abc123") 0.5)] ∧
      (trace3 0.5 badGenP "IMG" goodFields (Json.str "https://storage.example/upload")
          (Json.str "abc123")).filter isSleepEv = [] ∧
      (httpCalls (trace3 0.5 badGenP "IMG" goodFields
          (Json.str "https://storage.example/upload") (Json.str "abc123"))).filter isGet = []) :=
  ⟨rfl, rfl, rfl, rfl,
    C10_raise_before_sleep_no_rollback 0.5 badGenP "IMG" goodJ1 goodFields
      (Json.str "https://storage.example/upload") (Json.str "abc123") (Json.obj [])
      (PyError.keyError "sdGenerationJob") rfl rfl rfl rfl⟩
